import Mathlib

/-!
Shallow embedding of `src/response.rs` of `oc2-hlapi`: the response-decoding
layer of an RPC client.  The wire envelope is a JSON object
`{ "type": <tag>, "data"?: <payload> }`; `RpcResponse<T>` derives serde's
adjacently-tagged deserialization (`tag = "type"`, `content = "data"`), and
`InvokeResponse<R>` implements a hand-written `Deserialize` that reads the
payload through `Option<R>` and synthesizes zero-sized return values when the
`data` field is absent.

Serde semantics embedded here (from the serde library, which the source uses):
* an adjacently-tagged enum decodes the content field with the variant's
  `Deserialize` when present, and with serde's missing-field deserializer
  when absent; the missing-field deserializer answers `None` to
  `deserialize_option` and fails with a missing-field error otherwise;
* `Option<T>` decodes JSON `null` to `None` and anything else to `Some`
  of `T`'s decode;
* `Vec<T>` decodes a JSON array elementwise in order and fails on any
  non-array input;
* decode failures other than a missing field or an unknown tag are shape
  errors (`PayloadShapeMismatch` in the specification's taxonomy).
-/

/-- JSON values, the structured input of the decoder. -/
inductive Json where
  | null
  | bool (b : Bool)
  | num (n : Int)
  | str (s : String)
  | arr (elems : List Json)
  | obj (fields : List (String × Json))

/-- Decode-error taxonomy of the specification: `UnrecognizedTag`,
`PayloadShapeMismatch`, `MissingField(field-name)`. -/
inductive DeError where
  | unrecognizedTag (tag : String)
  | payloadShapeMismatch
  | missingField (field : String)
deriving DecidableEq, Repr

/-- Wire envelope: an object with a `type` string field and an optional
`data` field. -/
structure Envelope where
  tag : String
  data : Option Json

/-- Serde `Deserialize` behavior of a Rust type `α`, together with its
`std::mem::size_of`:
* `decode`: deserialization from a present content value;
* `decodeMissing`: deserialization from serde's missing-field deserializer,
  used when the `data` field of an adjacently-tagged enum is absent
  (ordinary types fail with `MissingField "data"`; `Option` yields `none`);
* `synth`: the value read out of well-aligned uninitialized memory when the
  type is zero-sized, as `zst` in the source does. -/
structure SerdeType (α : Type) where
  size : Nat
  synth : size = 0 → α
  decode : Json → Except DeError α
  decodeMissing : Except DeError α

/-- Serde's `Option<T>` deserialization of a present value: JSON `null`
becomes `none`, anything else is decoded as `α` and wrapped in `some`. -/
def decodeOption (S : SerdeType α) : Json → Except DeError (Option α)
  | .null => .ok none
  | j => (S.decode j).map some

/-- Serde's `Option<T>` deserialization as run by `InvokeResponse`'s
`Deserialize`: on the missing-field deserializer (content absent) its
`deserialize_option` yields `none`; on a present content value it behaves
as `decodeOption`. -/
def optionDeserialize (S : SerdeType α) : Option Json → Except DeError (Option α)
  | some j => decodeOption S j
  | none => .ok none

/-- Embeds `fn zst<T>() -> T` of `src/response.rs:41-50`: assert that `T` is
zero-sized, then conjure the value from uninitialized memory.  A failed
assertion is a panic, modelled as `none`. -/
def zst (S : SerdeType α) : Option α :=
  if h : S.size = 0 then some (S.synth h) else none

/-- Rust `InvokeResponse<R>(pub R)` from `src/response.rs:27`. -/
structure InvokeResponse (R : Type) where
  val : R

/-- Embeds the `match opt` of `InvokeResponse::deserialize`
(`src/response.rs:54-61`) with the panic possibility of `zst` kept explicit:
`none` models a panic.  `Some(r)` succeeds with `r`; `None` succeeds through
`zst` when `size_of::<R>() == 0` and fails with `MissingField "data"`
otherwise. -/
def InvokeResponse.deserializeCore (S : SerdeType R) :
    Option R → Option (Except DeError (InvokeResponse R))
  | some r => some (.ok ⟨r⟩)
  | none =>
    if S.size = 0 then
      (zst S).map (fun v => Except.ok ⟨v⟩)
    else
      some (.error (.missingField "data"))

/-- Embeds the `match opt` of `InvokeResponse::deserialize`
(`src/response.rs:54-61`) as the total function it evaluates to (the `zst`
call happens under the `size_of::<R>() == 0` guard, so its assertion holds
and it returns `S.synth`). -/
def InvokeResponse.deserializeRun (S : SerdeType R) :
    Option R → Except DeError (InvokeResponse R)
  | some r => .ok ⟨r⟩
  | none =>
    if h : S.size = 0 then .ok ⟨S.synth h⟩
    else .error (.missingField "data")

/-- Embeds `InvokeResponse::deserialize` (`src/response.rs:29-63`): the
incoming deserializer (a present content value, or the missing-field
deserializer when `data` is absent) is first read as `Option<R>`, then the
result is matched. -/
def InvokeResponse.deserialize (S : SerdeType R) (content : Option Json) :
    Except DeError (InvokeResponse R) :=
  match optionDeserialize S content with
  | .ok opt => InvokeResponse.deserializeRun S opt
  | .error e => .error e

/-- Serde behavior of `InvokeResponse<R>` given the behavior of `R`. -/
def invokeSerde (S : SerdeType R) : SerdeType (InvokeResponse R) where
  size := S.size
  synth h := ⟨S.synth h⟩
  decode j := InvokeResponse.deserialize S (some j)
  decodeMissing := InvokeResponse.deserialize S none

/-- Rust `RpcResponse<T: ApiCall>` from `src/response.rs:12-18`, with the
payload type `T::Response` abstracted as `ρ`: `Response` is the single
logical success variant, `Error` carries a string. -/
inductive RpcResponse (ρ : Type) where
  | Response (payload : ρ)
  | Error (message : String)

/-- Decodes the content slot of the adjacently-tagged enum: a present `data`
value goes through the variant type's `decode`, an absent one through its
behavior on serde's missing-field deserializer. -/
def contentDeserialize (S : SerdeType α) : Option Json → Except DeError α
  | some j => S.decode j
  | none => S.decodeMissing

/-- Serde behavior of Rust `String`: decodes only JSON strings; on the
missing-field deserializer it fails with `MissingField "data"`. -/
def stringSerde : SerdeType String where
  size := 24
  synth h := absurd h (by decide)
  decode
    | .str s => .ok s
    | _ => .error .payloadShapeMismatch
  decodeMissing := .error (.missingField "data")

/-- Embeds the derived `Deserialize` of `RpcResponse<T>`
(`src/response.rs:12-18`): adjacently tagged with `tag = "type"` and
`content = "data"`; the success variant is named `"result"` with aliases
`"list"` and `"methods"`; `Error` has tag `"error"` and a `String` payload;
any other tag is an unknown variant. -/
def RpcResponse.deserialize (S : SerdeType ρ) (env : Envelope) :
    Except DeError (RpcResponse ρ) :=
  if env.tag = "result" ∨ env.tag = "list" ∨ env.tag = "methods" then
    match contentDeserialize S env.data with
    | .ok v => .ok (.Response v)
    | .error e => .error e
  else if env.tag = "error" then
    match contentDeserialize stringSerde env.data with
    | .ok s => .ok (.Error s)
    | .error e => .error e
  else
    .error (.unrecognizedTag env.tag)

/-- Embeds `impl From<RpcResponse<T>> for Result<T::Response, String>`
(`src/response.rs:65-74`). -/
def RpcResponse.toResult : RpcResponse ρ → Except String ρ
  | .Response t => .ok t
  | .Error err => .error err

/-- Serde behavior of the void marker type `()`: zero-sized; decodes from
JSON `null`; fails on the missing-field deserializer. -/
def unitSerde : SerdeType Unit where
  size := 0
  synth _ := ()
  decode
    | .null => .ok ()
    | _ => .error .payloadShapeMismatch
  decodeMissing := .error (.missingField "data")

/-- Serde behavior of Rust `i64`: 8 bytes; decodes only JSON numbers. -/
def i64Serde : SerdeType Int where
  size := 8
  synth h := absurd h (by decide)
  decode
    | .num n => .ok n
    | _ => .error .payloadShapeMismatch
  decodeMissing := .error (.missingField "data")

/-- Serde behavior of Rust `Option<i64>`: 16 bytes; decode follows serde's
`Option` impl (`null` is `none`); on the missing-field deserializer its
`deserialize_option` yields `none`. -/
def optionI64Serde : SerdeType (Option Int) where
  size := 16
  synth h := absurd h (by decide)
  decode := decodeOption i64Serde
  decodeMissing := .ok none

/-- Modelled from the spec: `DeviceDescriptor` (`crate::prelude`) is not under
`src/`; the spec treats descriptors as opaque, externally-defined decodable
records, so a device descriptor is modelled as an opaque record of named
fields. -/
structure DeviceDescriptor where
  fields : List (String × Json)

/-- Modelled from the spec: `MethodDescriptor` (`crate::prelude`) is not under
`src/`; modelled as an opaque record of named fields like
`DeviceDescriptor`. -/
structure MethodDescriptor where
  fields : List (String × Json)

/-- Modelled from the spec: a device descriptor decodes from a JSON object
(structural decoding only) and fails with a shape error otherwise. -/
def DeviceDescriptor.decode : Json → Except DeError DeviceDescriptor
  | .obj fs => .ok ⟨fs⟩
  | _ => .error .payloadShapeMismatch

/-- Modelled from the spec: the JSON encoding of a device descriptor. -/
def DeviceDescriptor.encode (d : DeviceDescriptor) : Json :=
  .obj d.fields

/-- Modelled from the spec: a method descriptor decodes from a JSON object
and fails with a shape error otherwise. -/
def MethodDescriptor.decode : Json → Except DeError MethodDescriptor
  | .obj fs => .ok ⟨fs⟩
  | _ => .error .payloadShapeMismatch

/-- Modelled from the spec: the JSON encoding of a method descriptor. -/
def MethodDescriptor.encode (m : MethodDescriptor) : Json :=
  .obj m.fields

/-- Serde's `Vec<T>` element loop: decode each element in order, propagating
the first element failure. -/
def decodeElems (d : Json → Except DeError α) : List Json → Except DeError (List α)
  | [] => .ok []
  | j :: js =>
    match d j with
    | .ok v => (decodeElems d js).map (fun vs => v :: vs)
    | .error e => .error e

/-- Serde's `Vec<T>` deserialization of a present value: a JSON array is
decoded elementwise in order, anything else is a shape error. -/
def decodeVec (d : Json → Except DeError α) : Json → Except DeError (List α)
  | .arr js => decodeElems d js
  | _ => .error .payloadShapeMismatch

/-- Rust `ListResponse(pub Vec<DeviceDescriptor>)` from `src/response.rs:21`. -/
structure ListResponse where
  devices : List DeviceDescriptor

/-- Rust `MethodsResponse(pub Vec<MethodDescriptor>)` from
`src/response.rs:24`. -/
structure MethodsResponse where
  methods : List MethodDescriptor

/-- Serde behavior of `ListResponse` (derived newtype over
`Vec<DeviceDescriptor>`): decodes a JSON array of device descriptors; on the
missing-field deserializer the derived impl fails with
`MissingField "data"`. -/
def listSerde : SerdeType ListResponse where
  size := 24
  synth h := absurd h (by decide)
  decode j := (decodeVec DeviceDescriptor.decode j).map ListResponse.mk
  decodeMissing := .error (.missingField "data")

/-- Serde behavior of `MethodsResponse` (derived newtype over
`Vec<MethodDescriptor>`): decodes a JSON array of method descriptors; on the
missing-field deserializer the derived impl fails with
`MissingField "data"`. -/
def methodsSerde : SerdeType MethodsResponse where
  size := 24
  synth h := absurd h (by decide)
  decode j := (decodeVec MethodDescriptor.decode j).map MethodsResponse.mk
  decodeMissing := .error (.missingField "data")

/-! Helper lemmas shared by the claim theorems. -/

lemma decodeOption_ne_null (S : SerdeType α) (j : Json) (hj : j ≠ Json.null) :
    decodeOption S j = (S.decode j).map some := by
  cases j <;> simp [decodeOption] at hj ⊢

lemma decodeElems_device_encode (S : List DeviceDescriptor) :
    decodeElems DeviceDescriptor.decode (S.map DeviceDescriptor.encode) = .ok S := by
  induction S with
  | nil => rfl
  | cons d S ih =>
    simp [decodeElems, DeviceDescriptor.encode, DeviceDescriptor.decode, ih, Except.map]

lemma decodeElems_method_encode (M : List MethodDescriptor) :
    decodeElems MethodDescriptor.decode (M.map MethodDescriptor.encode) = .ok M := by
  induction M with
  | nil => rfl
  | cons m M ih =>
    simp [decodeElems, MethodDescriptor.encode, MethodDescriptor.decode, ih, Except.map]

lemma decodeElems_device_bad (js : List Json)
    (hbad : ∃ x ∈ js, ∀ fs, x ≠ Json.obj fs) :
    decodeElems DeviceDescriptor.decode js = .error .payloadShapeMismatch := by
  induction js with
  | nil => simp at hbad
  | cons j js ih =>
    by_cases hobj : ∃ fs, j = Json.obj fs
    · rcases hobj with ⟨fs, rfl⟩
      have hbad' : ∃ x ∈ js, ∀ fs, x ≠ Json.obj fs := by
        rcases hbad with ⟨x, hx, hfs⟩
        rcases List.mem_cons.mp hx with h | h
        · exact absurd h (hfs fs)
        · exact ⟨x, h, hfs⟩
      simp [decodeElems, DeviceDescriptor.decode, ih hbad', Except.map]
    · have hdec : DeviceDescriptor.decode j = .error .payloadShapeMismatch := by
        cases j with
        | obj fs => exact absurd ⟨fs, rfl⟩ hobj
        | null => rfl
        | bool b => rfl
        | num n => rfl
        | str s => rfl
        | arr es => rfl
      simp [decodeElems, hdec]

lemma decodeElems_method_bad (js : List Json)
    (hbad : ∃ x ∈ js, ∀ fs, x ≠ Json.obj fs) :
    decodeElems MethodDescriptor.decode js = .error .payloadShapeMismatch := by
  induction js with
  | nil => simp at hbad
  | cons j js ih =>
    by_cases hobj : ∃ fs, j = Json.obj fs
    · rcases hobj with ⟨fs, rfl⟩
      have hbad' : ∃ x ∈ js, ∀ fs, x ≠ Json.obj fs := by
        rcases hbad with ⟨x, hx, hfs⟩
        rcases List.mem_cons.mp hx with h | h
        · exact absurd h (hfs fs)
        · exact ⟨x, h, hfs⟩
      simp [decodeElems, MethodDescriptor.decode, ih hbad', Except.map]
    · have hdec : MethodDescriptor.decode j = .error .payloadShapeMismatch := by
        cases j with
        | obj fs => exact absurd ⟨fs, rfl⟩ hobj
        | null => rfl
        | bool b => rfl
        | num n => rfl
        | str s => rfl
        | arr es => rfl
      simp [decodeElems, hdec]

/-! Claim theorems. -/

/-- Claim C1: for an Invoke operation whose return type `R` is the void
marker (any zero-sized `R`), decoding an envelope with tag `"result"` and no
`data` field succeeds with `Success` carrying the synthesized void value. -/
theorem invoke_void_absent_ok (R : Type) (S : SerdeType R) (h : S.size = 0) :
    RpcResponse.deserialize (invokeSerde S) ⟨"result", none⟩ =
      .ok (.Response ⟨S.synth h⟩) := by
  simp [RpcResponse.deserialize, contentDeserialize, invokeSerde,
    InvokeResponse.deserialize, optionDeserialize, InvokeResponse.deserializeRun, h]

/-- Witness for C1 at the void marker type `()`. -/
theorem invoke_void_absent_ok_witness :
    RpcResponse.deserialize (invokeSerde unitSerde) ⟨"result", none⟩ =
      .ok (.Response ⟨()⟩) :=
  invoke_void_absent_ok Unit unitSerde rfl

/-- Claim C2: for an Invoke operation whose return type `R` is not
zero-sized, decoding an envelope with tag `"result"` and no `data` field
fails with `MissingField "data"`; absence is never treated as a value. -/
theorem invoke_nonvoid_absent_missing (R : Type) (S : SerdeType R)
    (h : S.size ≠ 0) :
    RpcResponse.deserialize (invokeSerde S) ⟨"result", none⟩ =
      .error (.missingField "data") := by
  simp [RpcResponse.deserialize, contentDeserialize, invokeSerde,
    InvokeResponse.deserialize, optionDeserialize, InvokeResponse.deserializeRun, h]

/-- Witness for C2 at `R = i64`. -/
theorem invoke_nonvoid_absent_missing_witness :
    RpcResponse.deserialize (invokeSerde i64Serde) ⟨"result", none⟩ =
      .error (.missingField "data") :=
  invoke_nonvoid_absent_missing Int i64Serde (by decide)

/-- Counterexample to claim C3 as stated: for `R = Option<i64>` with `data`
present and equal to `null`, the payload is structurally decodable as `R`
(it decodes to `none`), yet decoding does not succeed with that value — it
fails with `MissingField "data"`. -/
theorem invoke_present_null_cex :
    optionI64Serde.decode Json.null = .ok none ∧
    RpcResponse.deserialize (invokeSerde optionI64Serde)
      ⟨"result", some Json.null⟩ = .error (.missingField "data") :=
  ⟨rfl, rfl⟩

/-- Claim C3 (amended): for every Invoke operation and every envelope whose
`data` field is present and not `null`, decoding succeeds with exactly the
value decoded from `data` when `data` is structurally decodable as `R`, and
fails with `PayloadShapeMismatch` otherwise (given that `R`'s decoder
signals only shape errors); `data` equal to `null` is instead treated as an
absent field. -/
theorem invoke_present_nonnull (R : Type) (S : SerdeType R) (j : Json)
    (hj : j ≠ Json.null)
    (hwf : ∀ j e, S.decode j = .error e → e = DeError.payloadShapeMismatch) :
    (∀ v : R, S.decode j = .ok v →
      RpcResponse.deserialize (invokeSerde S) ⟨"result", some j⟩ =
        .ok (.Response ⟨v⟩)) ∧
    ((∃ e, S.decode j = .error e) →
      RpcResponse.deserialize (invokeSerde S) ⟨"result", some j⟩ =
        .error DeError.payloadShapeMismatch) := by
  have hd := decodeOption_ne_null S j hj
  constructor
  · intro v hv
    simp [RpcResponse.deserialize, contentDeserialize, invokeSerde,
      InvokeResponse.deserialize, optionDeserialize, hd, hv, Except.map,
      InvokeResponse.deserializeRun]
  · rintro ⟨e, he⟩
    have he' : e = DeError.payloadShapeMismatch := hwf j e he
    subst he'
    simp [RpcResponse.deserialize, contentDeserialize, invokeSerde,
      InvokeResponse.deserialize, optionDeserialize, hd, he, Except.map]

/-- Witness for C3 (amended) at `R = i64` with `data = 5`. -/
theorem invoke_present_nonnull_witness :
    RpcResponse.deserialize (invokeSerde i64Serde) ⟨"result", some (Json.num 5)⟩ =
      .ok (.Response ⟨5⟩) :=
  (invoke_present_nonnull Int i64Serde (Json.num 5)
    (fun h => Json.noConfusion h)
    (by intro j e h; cases j <;> simp_all [i64Serde])).1 5 rfl

/-- Claim C4: for every non-void return type `R`, an Invoke envelope whose
`data` field is present but `null` decodes exactly as if `data` were absent,
failing with `MissingField "data"`. -/
theorem invoke_nonvoid_null_eq_absent (R : Type) (S : SerdeType R)
    (h : S.size ≠ 0) :
    RpcResponse.deserialize (invokeSerde S) ⟨"result", some Json.null⟩ =
      .error (.missingField "data") ∧
    RpcResponse.deserialize (invokeSerde S) ⟨"result", some Json.null⟩ =
      RpcResponse.deserialize (invokeSerde S) ⟨"result", none⟩ := by
  constructor <;>
    simp [RpcResponse.deserialize, contentDeserialize, invokeSerde,
      InvokeResponse.deserialize, optionDeserialize, decodeOption,
      InvokeResponse.deserializeRun, h]

/-- Witness for C4 at `R = i64`. -/
theorem invoke_nonvoid_null_eq_absent_witness :
    RpcResponse.deserialize (invokeSerde i64Serde) ⟨"result", some Json.null⟩ =
      .error (.missingField "data") :=
  (invoke_nonvoid_null_eq_absent Int i64Serde (by decide)).1

/-- Claim C5: for every operation kind, the wire tags `"list"`, `"methods"`
and `"result"` decode identically — to the single success variant whose
payload is obtained from the statically known operation's content decoder,
never from the tag literal. -/
theorem success_tags_alias (ρ : Type) (S : SerdeType ρ) (data : Option Json) :
    RpcResponse.deserialize S ⟨"list", data⟩ =
      RpcResponse.deserialize S ⟨"result", data⟩ ∧
    RpcResponse.deserialize S ⟨"methods", data⟩ =
      RpcResponse.deserialize S ⟨"result", data⟩ ∧
    RpcResponse.deserialize S ⟨"result", data⟩ =
      (match contentDeserialize S data with
       | .ok v => .ok (.Response v)
       | .error e => .error e) := by
  refine ⟨?_, ?_, ?_⟩ <;> simp [RpcResponse.deserialize]

/-- Claim C6: for every operation kind and every string `s`, decoding an
envelope with tag `"error"` and `data` equal to the string `s` yields the
`Error` variant carrying exactly `s`. -/
theorem error_tag_string (ρ : Type) (S : SerdeType ρ) (s : String) :
    RpcResponse.deserialize S ⟨"error", some (Json.str s)⟩ =
      .ok (.Error s) := by
  simp [RpcResponse.deserialize, contentDeserialize, stringSerde]

/-- Counterexample to claim C7 as stated: decoding a List envelope with the
`data` field absent fails with `MissingField "data"`, not with
`PayloadShapeMismatch`. -/
theorem list_absent_data_cex :
    RpcResponse.deserialize listSerde ⟨"list", none⟩ =
      .error (.missingField "data") ∧
    DeError.missingField "data" ≠ DeError.payloadShapeMismatch :=
  ⟨rfl, by decide⟩

/-- Claim C7 (amended): decoding the List (respectively Methods) payload from
`data` equal to an encoded descriptor sequence succeeds with that sequence,
order preserved verbatim; it fails with `MissingField "data"` if `data` is
absent, and with `PayloadShapeMismatch` if `data` is not sequence-shaped or
any element fails to decode as its descriptor type. -/
theorem list_methods_decode (S : List DeviceDescriptor)
    (M : List MethodDescriptor) (j : Json) (hj : ∀ js, j ≠ Json.arr js) :
    RpcResponse.deserialize listSerde
      ⟨"result", some (Json.arr (S.map DeviceDescriptor.encode))⟩ =
      .ok (.Response ⟨S⟩) ∧
    RpcResponse.deserialize methodsSerde
      ⟨"result", some (Json.arr (M.map MethodDescriptor.encode))⟩ =
      .ok (.Response ⟨M⟩) ∧
    RpcResponse.deserialize listSerde ⟨"result", none⟩ =
      .error (.missingField "data") ∧
    RpcResponse.deserialize methodsSerde ⟨"result", none⟩ =
      .error (.missingField "data") ∧
    RpcResponse.deserialize listSerde ⟨"result", some j⟩ =
      .error .payloadShapeMismatch ∧
    RpcResponse.deserialize methodsSerde ⟨"result", some j⟩ =
      .error .payloadShapeMismatch ∧
    (∀ js, (∃ x ∈ js, ∀ fs, x ≠ Json.obj fs) →
      RpcResponse.deserialize listSerde ⟨"result", some (Json.arr js)⟩ =
        .error .payloadShapeMismatch) ∧
    (∀ js, (∃ x ∈ js, ∀ fs, x ≠ Json.obj fs) →
      RpcResponse.deserialize methodsSerde ⟨"result", some (Json.arr js)⟩ =
        .error .payloadShapeMismatch) := by
  refine ⟨?_, ?_, rfl, rfl, ?_, ?_, ?_, ?_⟩
  · simp [RpcResponse.deserialize, contentDeserialize, listSerde, decodeVec,
      decodeElems_device_encode, Except.map]
  · simp [RpcResponse.deserialize, contentDeserialize, methodsSerde, decodeVec,
      decodeElems_method_encode, Except.map]
  · have hdv : decodeVec DeviceDescriptor.decode j =
        .error .payloadShapeMismatch := by
      cases j with
      | arr js => exact absurd rfl (hj js)
      | null => rfl
      | bool b => rfl
      | num n => rfl
      | str s => rfl
      | obj fs => rfl
    simp [RpcResponse.deserialize, contentDeserialize, listSerde, hdv,
      Except.map]
  · have hmv : decodeVec MethodDescriptor.decode j =
        .error .payloadShapeMismatch := by
      cases j with
      | arr js => exact absurd rfl (hj js)
      | null => rfl
      | bool b => rfl
      | num n => rfl
      | str s => rfl
      | obj fs => rfl
    simp [RpcResponse.deserialize, contentDeserialize, methodsSerde, hmv,
      Except.map]
  · intro js hbad
    simp [RpcResponse.deserialize, contentDeserialize, listSerde, decodeVec,
      decodeElems_device_bad js hbad, Except.map]
  · intro js hbad
    simp [RpcResponse.deserialize, contentDeserialize, methodsSerde, decodeVec,
      decodeElems_method_bad js hbad, Except.map]

/-- Witness for C7 (amended): a two-element device list round-trips in
order. -/
theorem list_methods_decode_witness :
    RpcResponse.deserialize listSerde
      ⟨"result", some (Json.arr [Json.obj [("id", Json.num 1)], Json.obj []])⟩ =
      .ok (.Response ⟨[⟨[("id", Json.num 1)]⟩, ⟨[]⟩]⟩) :=
  (list_methods_decode [⟨[("id", Json.num 1)]⟩, ⟨[]⟩] [] (Json.num 0)
    (fun _ h => Json.noConfusion h)).1

/-- Claim C8: for every operation kind, every `data` contents, and every tag
that is not one of `"list"`, `"methods"`, `"result"` or `"error"`, decoding
the envelope fails with `UnrecognizedTag` carrying that tag. -/
theorem unknown_tag (ρ : Type) (S : SerdeType ρ) (tag : String)
    (data : Option Json) (h1 : tag ≠ "list") (h2 : tag ≠ "methods")
    (h3 : tag ≠ "result") (h4 : tag ≠ "error") :
    RpcResponse.deserialize S ⟨tag, data⟩ =
      .error (.unrecognizedTag tag) := by
  simp [RpcResponse.deserialize, h1, h2, h3, h4]

/-- Witness for C8 at tag `"banana"`. -/
theorem unknown_tag_witness :
    RpcResponse.deserialize unitSerde ⟨"banana", some (Json.num 1)⟩ =
      .error (.unrecognizedTag "banana") :=
  unknown_tag Unit unitSerde "banana" (some (Json.num 1))
    (by decide) (by decide) (by decide) (by decide)

/-- Claim C9: the result conversion is total and maps `Response p` to the
success outcome carrying exactly `p`, and `Error s` to the failure outcome
carrying exactly `s`, with no other behavior. -/
theorem toResult_exact (ρ : Type) (p : ρ) (s : String) :
    RpcResponse.toResult (RpcResponse.Response p) = Except.ok p ∧
    RpcResponse.toResult (RpcResponse.Error s : RpcResponse ρ) =
      Except.error s ∧
    ∀ r : RpcResponse ρ,
      (∃ v, r = .Response v ∧ RpcResponse.toResult r = .ok v) ∨
      (∃ m, r = .Error m ∧ RpcResponse.toResult r = .error m) := by
  refine ⟨rfl, rfl, ?_⟩
  intro r
  cases r with
  | Response v => exact Or.inl ⟨v, rfl, rfl⟩
  | Error m => exact Or.inr ⟨m, rfl, rfl⟩

/-- Claim C10: the void-synthesis path is gated solely by the size check —
`InvokeResponse::deserialize` never reaches `zst`'s failing assertion for any
`R` (modelled: `deserializeCore` never panics), and for every zero-sized `R`
an absent payload succeeds by synthesizing the value of `R`. -/
theorem zst_gate_safe (R : Type) (S : SerdeType R) (h : S.size = 0) :
    (∀ (A : Type) (T : SerdeType A) (opt : Option A),
      InvokeResponse.deserializeCore T opt ≠ none) ∧
    InvokeResponse.deserializeCore S none = some (.ok ⟨S.synth h⟩) ∧
    RpcResponse.deserialize (invokeSerde S) ⟨"result", none⟩ =
      .ok (.Response ⟨S.synth h⟩) := by
  refine ⟨?_, ?_, ?_⟩
  · intro A T opt
    cases opt with
    | some r => simp [InvokeResponse.deserializeCore]
    | none =>
      by_cases h' : T.size = 0
      · simp [InvokeResponse.deserializeCore, h', zst]
      · simp [InvokeResponse.deserializeCore, h']
  · simp [InvokeResponse.deserializeCore, h, zst]
  · simp [RpcResponse.deserialize, contentDeserialize, invokeSerde,
      InvokeResponse.deserialize, optionDeserialize,
      InvokeResponse.deserializeRun, h]

/-- Witness for C10 at the void marker type `()`. -/
theorem zst_gate_safe_witness :
    InvokeResponse.deserializeCore unitSerde none = some (.ok ⟨()⟩) :=
  (zst_gate_safe Unit unitSerde rfl).2.1
